import Mathlib

/-!
Verification of the regions plugin (region position model, overlap clamp,
autoscroll hard-stop, drag gesture recognizer, plugin-level region creation
and playback membership events).

The embedding models times, pixel widths and deltas as rationals (the source
operates on JS numbers; the spec calls them real numbers in seconds).
DOM construction, styling and event-listener wiring are out of scope: a
region's committed state is its `start`/`end_` pair plus the derived percent
positions, and the autoscroll timer is modelled by the Boolean
`scrollTimerActive` (`clearInterval` -> `false`).
-/

/-- One entry of `Region.regionsList` (the neighbor list the overlap clamp
consults). Mirrors the element type at line 85 of the regions source. -/
structure RLEntry where
  start : ℚ
  end_ : ℚ
  content : String := ""
  color : String := ""
  drag : Bool := true
  resize : Bool := true
deriving DecidableEq

/-- The `side` parameter `'start' | 'end'`; the source passes `null` for a
whole-region move, modelled as `Option Side` with `none` = move. -/
inductive Side where
  | start : Side
  | end_ : Side
deriving DecidableEq

/-- `RegionParams` (the constructor's parameter object). Optional fields are
`Option`; `maxLength` stays `Option` in the state as well because its default
is `Infinity` (no upper bound). -/
structure RegionParams where
  id : Option String := none
  start : ℚ
  end_ : Option ℚ := none
  drag : Option Bool := none
  resize : Option Bool := none
  minLength : Option ℚ := none
  maxLength : Option ℚ := none
  channelIdx : Option ℤ := none
deriving DecidableEq

/-- The committed state of a `Region`. DOM-only fields (element, color,
content, contentEditable, subscriptions) are omitted; the autoscroll interval
handle is modelled by `scrollTimerActive`. -/
structure RegionState where
  id : String
  start : ℚ
  end_ : ℚ
  totalDuration : ℚ
  drag : Bool
  resize : Bool
  minLength : ℚ
  maxLength : Option ℚ
  channelIdx : ℤ
  numberOfChannels : ℕ
  startPercentPosition : ℚ
  endPercentPosition : ℚ
  regionsList : List RLEntry
  regionsListIndex : ℤ
  scrollTimerActive : Bool
deriving DecidableEq

/-- `clampPosition`: clamp a time into `[0, totalDuration]`. -/
def clampPosition (totalDuration time : ℚ) : ℚ :=
  max 0 (min totalDuration time)

/-- `renderPosition`: the left percent, `start / totalDuration * 100`. -/
def startPct (totalDuration x : ℚ) : ℚ :=
  x / totalDuration * 100

/-- `renderPosition`: the right-edge percent,
`100 - (totalDuration - end) / totalDuration * 100`. -/
def endPct (totalDuration x : ℚ) : ℚ :=
  100 - (totalDuration - x) / totalDuration * 100

/-- The `Region` constructor: clamps each edge into `[0, totalDuration]`
(`end` defaults to `start`), applies parameter defaults, computes the percent
positions, and initializes `regionsList` empty, `regionsListIndex` to `0` and
no running autoscroll timer. A missing `id` is generated randomly in the
source; the model uses `""`. -/
def mkRegion (params : RegionParams) (totalDuration : ℚ) (numberOfChannels : ℕ) :
    RegionState :=
  let start := clampPosition totalDuration params.start
  let end_ := clampPosition totalDuration (params.end_.getD params.start)
  { id := params.id.getD ""
    start := start
    end_ := end_
    totalDuration := totalDuration
    drag := params.drag.getD true
    resize := params.resize.getD true
    minLength := params.minLength.getD 0
    maxLength := params.maxLength
    channelIdx := params.channelIdx.getD (-1)
    numberOfChannels := numberOfChannels
    startPercentPosition := startPct totalDuration start
    endPercentPosition := endPct totalDuration end_
    regionsList := []
    regionsListIndex := 0
    scrollTimerActive := false }

/-- The options accepted by `setOptions` (color/content updates only touch the
DOM and are omitted). -/
structure RegionOptions where
  id : Option String := none
  start : Option ℚ := none
  end_ : Option ℚ := none
  drag : Option Bool := none
  resize : Option Bool := none
deriving DecidableEq

/-- `Region.setOptions`: updates `drag`, re-clamps `start`/`end` when either
is given (a marker keeps `end = start`), re-renders the percent positions,
updates `id`, and toggles `resize`. -/
def setOptions (s : RegionState) (o : RegionOptions) : RegionState :=
  let s1 := match o.drag with
    | some d => { s with drag := d }
    | none => s
  let s2 :=
    if o.start.isSome || o.end_.isSome then
      let isMarker : Bool := decide (s1.start = s1.end_)
      let ns := clampPosition s1.totalDuration (o.start.getD s1.start)
      let ne := clampPosition s1.totalDuration
        (o.end_.getD (if isMarker then ns else s1.end_))
      { s1 with
        start := ns
        end_ := ne
        startPercentPosition := startPct s1.totalDuration ns
        endPercentPosition := endPct s1.totalDuration ne }
    else s1
  let s3 := match o.id with
    | some i => { s2 with id := i }
    | none => s2
  match o.resize with
  | some r => if r ≠ s.resize then { s3 with resize := r } else s3
  | none => s3

/-- `Region._setTotalDuration`: store the new duration and re-render the
percent positions. -/
def setTotalDuration (s : RegionState) (totalDuration : ℚ) : RegionState :=
  { s with
    totalDuration := totalDuration
    startPercentPosition := startPct totalDuration s.start
    endPercentPosition := endPct totalDuration s.end_ }

/-- JS array indexing with a possibly negative or out-of-range index
(`undefined` -> `none`). -/
def zget {α : Type} (l : List α) (i : ℤ) : Option α :=
  if i < 0 then none else l[i.toNat]?

/-- `this.regionsList[this.regionsListIndex - 1]`. -/
def prevEntry (s : RegionState) : Option RLEntry :=
  zget s.regionsList (s.regionsListIndex - 1)

/-- `this.regionsList[this.regionsListIndex + 1]`. -/
def nextEntry (s : RegionState) : Option RLEntry :=
  zget s.regionsList (s.regionsListIndex + 1)

/-- `_onUpdate`: pixel delta to seconds, `(dx / width) * totalDuration`. -/
def deltaSeconds (s : RegionState) (w dx : ℚ) : ℚ :=
  dx / w * s.totalDuration

/-- `_onUpdate`: tentative new start,
`!side || side === 'start' ? start + deltaSeconds : start`. -/
def tentStart (s : RegionState) (w dx : ℚ) (side : Option Side) : ℚ :=
  match side with
  | none => s.start + deltaSeconds s w dx
  | some Side.start => s.start + deltaSeconds s w dx
  | some Side.end_ => s.start

/-- `_onUpdate`: tentative new end,
`!side || side === 'end' ? end + deltaSeconds : end`. -/
def tentEnd (s : RegionState) (w dx : ℚ) (side : Option Side) : ℚ :=
  match side with
  | none => s.end_ + deltaSeconds s w dx
  | some Side.start => s.end_
  | some Side.end_ => s.end_ + deltaSeconds s w dx

/-- `_onUpdate`: `length = newEnd - newStart`, computed before any overlap
clamp. -/
def tentLength (s : RegionState) (w dx : ℚ) (side : Option Side) : ℚ :=
  tentEnd s w dx side - tentStart s w dx side

/-- The overlap epsilon, `0.000000001` seconds. -/
def overlapEps : ℚ := 1 / 1000000000

/-- The next-neighbor half of the overlap check: if `newEnd` advances past the
next entry's `start`, clamp `newEnd := next.start - ε`; when resizing the
start is recomputed as `newEnd - (newEnd - newStart)` (an identity), when
moving as `newEnd - (end - start)`. -/
def clampAgainstNext (s : RegionState) (ns ne : ℚ) (side : Option Side) :
    ℚ × ℚ × Bool :=
  match nextEntry s with
  | some nxt =>
    if ne > nxt.start then
      let ne1 := nxt.start - overlapEps
      let ns1 := match side with
        | some _ => ne1 - (ne1 - ns)
        | none => ne1 - (s.end_ - s.start)
      (ns1, ne1, true)
    else (ns, ne, false)
  | none => (ns, ne, false)

/-- The overlap check of `_onUpdate` (lines 328-342): with a nonempty
`regionsList`, first test the previous entry (`newStart < prev.end` clamps
`newStart := prev.end + ε`; when resizing the end is recomputed as
`newStart + (newEnd - newStart)`, an identity, when moving as
`newStart + (end - start)`), else test the next entry. Returns the possibly
clamped `(newStart, newEnd)` and the `overlapWithAnotherRegion` flag. -/
def clampResult (s : RegionState) (w dx : ℚ) (side : Option Side) :
    ℚ × ℚ × Bool :=
  let ns := tentStart s w dx side
  let ne := tentEnd s w dx side
  if s.regionsList.length = 0 then (ns, ne, false)
  else
    match prevEntry s with
    | some prev =>
      if ns < prev.end_ then
        let ns1 := prev.end_ + overlapEps
        let ne1 := match side with
          | some _ => ns1 + (ne - ns1)
          | none => ns1 + (s.end_ - s.start)
        (ns1, ne1, true)
      else clampAgainstNext s ns ne side
    | none => clampAgainstNext s ns ne side

/-- The possibly clamped new start. -/
def clampedStart (s : RegionState) (w dx : ℚ) (side : Option Side) : ℚ :=
  (clampResult s w dx side).1

/-- The possibly clamped new end. -/
def clampedEnd (s : RegionState) (w dx : ℚ) (side : Option Side) : ℚ :=
  (clampResult s w dx side).2.1

/-- The `overlapWithAnotherRegion` flag. -/
def overlapFlag (s : RegionState) (w dx : ℚ) (side : Option Side) : Bool :=
  (clampResult s w dx side).2.2

/-- `length <= this.maxLength` where a missing bound is `Infinity`. -/
def lengthLeMax (maxLength : Option ℚ) (l : ℚ) : Bool :=
  match maxLength with
  | none => true
  | some b => decide (l ≤ b)

/-- The commit test of `_onUpdate` (line 344):
`overlapWithAnotherRegion || (newStart >= 0 && newEnd <= totalDuration &&
newStart <= newEnd && length >= minLength && length <= maxLength)` — the
bounds on the possibly clamped values, the length bounds on the pre-clamp
length. -/
def acceptBool (s : RegionState) (w dx : ℚ) (side : Option Side) : Bool :=
  overlapFlag s w dx side ||
    (decide (0 ≤ clampedStart s w dx side) &&
      decide (clampedEnd s w dx side ≤ s.totalDuration) &&
      decide (clampedStart s w dx side ≤ clampedEnd s w dx side) &&
      decide (s.minLength ≤ tentLength s w dx side) &&
      lengthLeMax s.maxLength (tentLength s w dx side))

/-- The result of one `_onUpdate` call: the new committed state, whether the
`update` notification fired, and the overlap flag. -/
structure UpdateResult where
  state : RegionState
  emitted : Bool
  overlap : Bool
deriving DecidableEq

/-- `Region._onUpdate(dx, side)` with the parent container `w` pixels wide
(the source returns early when the element is detached; the model covers the
attached case). On acceptance it stores the clamped start/end, re-renders the
percent positions and emits `update`; on rejection nothing changes. An
overlap event stops the autoscroll timer in the same call either way. -/
def onUpdate (s : RegionState) (w dx : ℚ) (side : Option Side) : UpdateResult :=
  let ov := overlapFlag s w dx side
  let timer := if ov then false else s.scrollTimerActive
  if acceptBool s w dx side then
    { state := { s with
        start := clampedStart s w dx side
        end_ := clampedEnd s w dx side
        startPercentPosition := startPct s.totalDuration (clampedStart s w dx side)
        endPercentPosition := endPct s.totalDuration (clampedEnd s w dx side)
        scrollTimerActive := timer }
      emitted := true
      overlap := ov }
  else
    { state := { s with scrollTimerActive := timer }
      emitted := false
      overlap := ov }

/-- The spec's acceptance test as a proposition over the possibly clamped
edges and the pre-clamp length: the sample is committed iff an overlap event
occurred or all the bounds hold. -/
def commitCondition (s : RegionState) (w dx : ℚ) (side : Option Side) : Prop :=
  overlapFlag s w dx side = true ∨
    (0 ≤ clampedStart s w dx side ∧
      clampedEnd s w dx side ≤ s.totalDuration ∧
      clampedStart s w dx side ≤ clampedEnd s w dx side ∧
      s.minLength ≤ tentLength s w dx side ∧
      lengthLeMax s.maxLength (tentLength s w dx side) = true)

/-- Per-edge bounds: each of `start` and `end` lies in `[0, totalDuration]`. -/
def edgeBounds (s : RegionState) : Prop :=
  0 ≤ s.start ∧ s.start ≤ s.totalDuration ∧ 0 ≤ s.end_ ∧ s.end_ ≤ s.totalDuration

/-- The spec's full region invariant `0 ≤ start ≤ end ≤ totalDuration`. -/
def fullInvariant (s : RegionState) : Prop :=
  0 ≤ s.start ∧ s.start ≤ s.end_ ∧ s.end_ ≤ s.totalDuration

/-- The states a region can reach through the repository's own operations:
the constructor, `_onUpdate`, `setOptions` and `_setTotalDuration`. -/
inductive Reachable : RegionState → Prop where
  | init (p : RegionParams) (td : ℚ) (nch : ℕ) : Reachable (mkRegion p td nch)
  | update (s : RegionState) (w dx : ℚ) (side : Option Side) :
      Reachable s → Reachable (onUpdate s w dx side).state
  | opts (s : RegionState) (o : RegionOptions) :
      Reachable s → Reachable (setOptions s o)
  | duration (s : RegionState) (d : ℚ) :
      Reachable s → Reachable (setTotalDuration s d)

/-- The configuration `makeDraggable` closes over: activation threshold,
mouse button, touch delay, `side` lock, and whether the device is
coarse-pointer (`matchMedia('(pointer: coarse)')`). -/
structure DragConfig where
  threshold : ℚ := 3
  mouseButton : ℤ := 0
  touchDelay : ℚ := 100
  side : Option Side := none
  isTouchDevice : Bool := false
deriving DecidableEq

/-- The per-press session state of `makeDraggable`: the anchor
(`startX`, `startY`), the activation flag, the press timestamp, and the
pointer's initial offset from the element's left edge (computed only when no
`side` lock is configured). -/
structure DragSession where
  startX : ℚ
  startY : ℚ
  isDragging : Bool
  touchStartTime : ℚ
  startXFromRectLeft : ℚ
deriving DecidableEq

/-- The element's bounding box as `onPointerMove` reads it. -/
structure Rect where
  left : ℚ
  top : ℚ
  right : ℚ
deriving DecidableEq

/-- One `onPointerMove` step's outcome: the new session state, whether
`onStart` fired on this sample, whether `onDrag` fired, and the delta it was
passed. -/
structure MoveOutcome where
  session : DragSession
  startFired : Bool
  dragFired : Bool
  dragDx : ℚ
  dragDy : ℚ
deriving DecidableEq

/-- `makeDraggable`'s `onPointerDown`: a press of a button other than the
configured one is ignored entirely; otherwise a fresh session starts with the
anchor at the press point. -/
def onPointerDown (cfg : DragConfig) (button : ℤ) (x y now rectLeft : ℚ) :
    Option DragSession :=
  if button ≠ cfg.mouseButton then none
  else some
    { startX := x
      startY := y
      isDragging := false
      touchStartTime := now
      startXFromRectLeft := if cfg.side.isSome then 0 else x - rectLeft }

/-- `makeDraggable`'s `onPointerMove` (lines 34-80 of the draggable source):
the touch-delay guard, the activation threshold on `|dx|`/`|dy|` against the
anchor, the directional-lock `leaveEarlier` computation (suppresses `onDrag`
but still advances the anchor), and the normal `onDrag` dispatch followed by
anchor advance. -/
def onPointerMove (cfg : DragConfig) (rect : Rect) (st : DragSession)
    (x y now : ℚ) : MoveOutcome :=
  if cfg.isTouchDevice && decide (now - st.touchStartTime < cfg.touchDelay) then
    { session := st, startFired := false, dragFired := false, dragDx := 0, dragDy := 0 }
  else
    let dx := x - st.startX
    let dy := y - st.startY
    if st.isDragging || decide (cfg.threshold < |dx|) || decide (cfg.threshold < |dy|) then
      let startFired := !st.isDragging
      let leaveEarlier : Bool :=
        match cfg.side with
        | some Side.start =>
          decide (dx > 0 ∧ x < rect.left) || decide (dx < 0 ∧ x > rect.right)
        | some Side.end_ =>
          decide (dx > 0 ∧ x < rect.left) || decide (dx < 0 ∧ x > rect.right)
        | none =>
          let currentStartXFromRectLeft := x - rect.left
          decide (dx > 0 ∧ currentStartXFromRectLeft < st.startXFromRectLeft) ||
            decide (dx < 0 ∧ currentStartXFromRectLeft > st.startXFromRectLeft)
      let advanced : DragSession :=
        { st with startX := x, startY := y, isDragging := true }
      if leaveEarlier then
        { session := advanced, startFired := startFired, dragFired := false
          dragDx := 0, dragDy := 0 }
      else
        { session := advanced, startFired := startFired, dragFired := true
          dragDx := dx, dragDy := dy }
    else
      { session := st, startFired := false, dragFired := false, dragDx := 0, dragDy := 0 }

/-- What the plugin reads from the host player: the total duration (0 while
still unknown) and the decoded channel count. -/
structure WavesurferModel where
  duration : ℚ
  numberOfChannels : ℕ
deriving DecidableEq

/-- The outcome of `addRegion` when it does not throw: the region saved right
away, or construction deferred until the `ready` event delivers a duration. -/
inductive AddOutcome where
  | saved (region : RegionState)
  | deferred (region : RegionState)
deriving DecidableEq

/-- `RegionsPlugin.addRegion`: throws `'WaveSurfer is not initialized'` when
the host player is absent; otherwise builds the region from the current
duration and either saves it now or, when the duration is still unknown
(falsy), defers saving to the `ready` event. -/
def addRegion (wavesurfer : Option WavesurferModel) (options : RegionParams) :
    Except String AddOutcome :=
  match wavesurfer with
  | none => Except.error "WaveSurfer is not initialized"
  | some ws =>
    let region := mkRegion options ws.duration ws.numberOfChannels
    if ws.duration = 0 then Except.ok (AddOutcome.deferred region)
    else Except.ok (AddOutcome.saved region)

/-- The deferred branch's `ready` handler: `_setTotalDuration(duration)` on
the waiting region (which is then saved). -/
def completeDeferred (region : RegionState) (duration : ℚ) : RegionState :=
  setTotalDuration region duration

/-- What `enableDragSelection` returns: the no-op disposer of the early
`return () => undefined`, or the drag-to-create binding installed on the
wrapper. -/
inductive DragSelSetup where
  | noop
  | installed
deriving DecidableEq

/-- `RegionsPlugin.enableDragSelection`: with no host player the wrapper is
`undefined` and the call returns the no-op disposer; otherwise it installs the
drag-to-create gesture. It never throws. -/
def enableDragSelection (wavesurfer : Option WavesurferModel) :
    Except String DragSelSetup :=
  match wavesurfer with
  | none => Except.ok DragSelSetup.noop
  | some _ => Except.ok DragSelSetup.installed

/-- The notifications the `timeupdate` handler can emit. -/
inductive REvent where
  | regionInEv (id : String)
  | regionOutEv (id : String)
deriving DecidableEq

/-- The handler's scan: the first region (in collection order) whose
`[start, end]` contains the current time. -/
def findRegionIn (regions : List RegionState) (t : ℚ) : Option RegionState :=
  regions.find? (fun r => decide (r.start ≤ t) && decide (t ≤ r.end_))

/-- The `timeupdate` handler of `RegionsPlugin.onInit` (lines 603-619 of the
regions source): only while the player reports `isPlaying()` does it look for
the region containing the current time, emitting `region-in` on entering a
new region and `region-out` on leaving all regions; while paused it emits
nothing and leaves the tracked `regionIn` untouched. Region identity is
tracked by id. -/
def timeupdateHandler (regions : List RegionState) (regionIn : Option String)
    (t : ℚ) (isPlaying : Bool) : Option String × List REvent :=
  if isPlaying then
    match findRegionIn regions t with
    | some r =>
      if regionIn = some r.id then (regionIn, [])
      else (some r.id, [REvent.regionInEv r.id])
    | none =>
      match regionIn with
      | some prev => (none, [REvent.regionOutEv prev])
      | none => (none, [])
  else (regionIn, [])

/-- A plain region `[5, 10]` on a 100-second timeline, as the constructor
builds it. -/
def sampleRegion : RegionState :=
  mkRegion { start := 5, end_ := some 10 } 100 0

/-- The spec's scenario B region `B = [18, 30]` with neighbors
`[0, 20]` (previous) and itself in the list, an active autoscroll timer, on a
100-second timeline. -/
def regionB : RegionState :=
  { mkRegion { start := 18, end_ := some 30 } 100 0 with
    regionsList := [{ start := 0, end_ := 20 }, { start := 18, end_ := 30 }]
    regionsListIndex := 1
    scrollTimerActive := true }

theorem zget_nil {α : Type} (i : ℤ) : zget ([] : List α) i = none := by
  unfold zget
  split <;> simp

theorem clampPosition_bounds (td t : ℚ) (h : 0 ≤ td) :
    0 ≤ clampPosition td t ∧ clampPosition td t ≤ td :=
  ⟨le_max_left _ _, max_le h (min_le_left _ _)⟩

theorem onUpdate_emitted (s : RegionState) (w dx : ℚ) (side : Option Side) :
    (onUpdate s w dx side).emitted = acceptBool s w dx side := by
  unfold onUpdate
  split <;> simp_all

theorem onUpdate_overlap_eq (s : RegionState) (w dx : ℚ) (side : Option Side) :
    (onUpdate s w dx side).overlap = overlapFlag s w dx side := by
  unfold onUpdate
  split <;> rfl

theorem onUpdate_regionsList (s : RegionState) (w dx : ℚ) (side : Option Side) :
    (onUpdate s w dx side).state.regionsList = s.regionsList := by
  unfold onUpdate
  split <;> rfl

theorem onUpdate_totalDuration (s : RegionState) (w dx : ℚ) (side : Option Side) :
    (onUpdate s w dx side).state.totalDuration = s.totalDuration := by
  unfold onUpdate
  split <;> rfl

theorem onUpdate_timer (s : RegionState) (w dx : ℚ) (side : Option Side) :
    (onUpdate s w dx side).state.scrollTimerActive =
      (if overlapFlag s w dx side then false else s.scrollTimerActive) := by
  unfold onUpdate
  split <;> rfl

theorem onUpdate_state_accept (s : RegionState) (w dx : ℚ) (side : Option Side)
    (h : acceptBool s w dx side = true) :
    (onUpdate s w dx side).state.start = clampedStart s w dx side ∧
    (onUpdate s w dx side).state.end_ = clampedEnd s w dx side := by
  unfold onUpdate
  rw [if_pos h]
  exact ⟨rfl, rfl⟩

theorem onUpdate_state_reject (s : RegionState) (w dx : ℚ) (side : Option Side)
    (h : acceptBool s w dx side = false) :
    (onUpdate s w dx side).state.start = s.start ∧
    (onUpdate s w dx side).state.end_ = s.end_ ∧
    (onUpdate s w dx side).state.startPercentPosition = s.startPercentPosition ∧
    (onUpdate s w dx side).state.endPercentPosition = s.endPercentPosition := by
  unfold onUpdate
  rw [if_neg (by simp [h])]
  exact ⟨rfl, rfl, rfl, rfl⟩

theorem acceptBool_iff (s : RegionState) (w dx : ℚ) (side : Option Side) :
    acceptBool s w dx side = true ↔ commitCondition s w dx side := by
  unfold acceptBool commitCondition
  cases h : overlapFlag s w dx side <;>
    simp [h, Bool.and_eq_true, decide_eq_true_eq, and_assoc]

theorem clampResult_nil (s : RegionState) (w dx : ℚ) (side : Option Side)
    (h : s.regionsList = []) :
    clampResult s w dx side =
      (tentStart s w dx side, tentEnd s w dx side, false) := by
  unfold clampResult
  rw [h]
  rfl

theorem overlapFlag_nil (s : RegionState) (w dx : ℚ) (side : Option Side)
    (h : s.regionsList = []) : overlapFlag s w dx side = false := by
  unfold overlapFlag
  rw [clampResult_nil s w dx side h]

theorem clampedStart_nil (s : RegionState) (w dx : ℚ) (side : Option Side)
    (h : s.regionsList = []) :
    clampedStart s w dx side = tentStart s w dx side := by
  unfold clampedStart
  rw [clampResult_nil s w dx side h]

theorem clampedEnd_nil (s : RegionState) (w dx : ℚ) (side : Option Side)
    (h : s.regionsList = []) :
    clampedEnd s w dx side = tentEnd s w dx side := by
  unfold clampedEnd
  rw [clampResult_nil s w dx side h]

theorem tentStart_zero (s : RegionState) (w : ℚ) (side : Option Side) :
    tentStart s w 0 side = s.start := by
  cases side with
  | none => simp [tentStart, deltaSeconds]
  | some sd => cases sd <;> simp [tentStart, deltaSeconds]

theorem tentEnd_zero (s : RegionState) (w : ℚ) (side : Option Side) :
    tentEnd s w 0 side = s.end_ := by
  cases side with
  | none => simp [tentEnd, deltaSeconds]
  | some sd => cases sd <;> simp [tentEnd, deltaSeconds]

theorem setOptions_regionsList (s : RegionState) (o : RegionOptions) :
    (setOptions s o).regionsList = s.regionsList := by
  unfold setOptions
  repeat' split
  all_goals rfl

theorem setTotalDuration_regionsList (s : RegionState) (d : ℚ) :
    (setTotalDuration s d).regionsList = s.regionsList := rfl

theorem sampleRegion_start : sampleRegion.start = 5 := by decide

theorem sampleRegion_end : sampleRegion.end_ = 10 := by decide

theorem sampleRegion_totalDuration : sampleRegion.totalDuration = 100 := rfl

theorem sampleRegion_minLength : sampleRegion.minLength = 0 := rfl

theorem sampleRegion_maxLength : sampleRegion.maxLength = none := rfl

theorem sampleRegion_regionsList : sampleRegion.regionsList = [] := rfl

theorem regionB_start : regionB.start = 18 := by decide

theorem regionB_end : regionB.end_ = 30 := by decide

theorem regionB_totalDuration : regionB.totalDuration = 100 := rfl

/-- The general previous-neighbor clamp during a start-resize: when the entry
before `regionsListIndex` exists and the tentative new start would retreat
past its `end`, the sample is committed with `start` clamped to that `end`
plus the epsilon, `end` left at its tentative value (the region's current
`end`, since a start-resize does not move it), the overlap event marked, and
the autoscroll timer stopped. -/
theorem prevClampResizeStart (s : RegionState) (w dx : ℚ) (p : RLEntry)
    (hp : prevEntry s = some p)
    (hlt : tentStart s w dx (some Side.start) < p.end_) :
    (onUpdate s w dx (some Side.start)).state.start = p.end_ + overlapEps ∧
    (onUpdate s w dx (some Side.start)).state.end_ = s.end_ ∧
    (onUpdate s w dx (some Side.start)).overlap = true ∧
    (onUpdate s w dx (some Side.start)).emitted = true ∧
    (onUpdate s w dx (some Side.start)).state.scrollTimerActive = false := by
  have hne : ¬s.regionsList.length = 0 := by
    intro h0
    rw [List.length_eq_zero] at h0
    rw [prevEntry, h0, zget_nil] at hp
    exact Option.noConfusion hp
  have hcr : clampResult s w dx (some Side.start) =
      (p.end_ + overlapEps, s.end_, true) := by
    unfold clampResult
    rw [if_neg hne, hp]
    simp only [if_pos hlt]
    have hte : tentEnd s w dx (some Side.start) = s.end_ := rfl
    rw [hte]
    have : p.end_ + overlapEps + (s.end_ - (p.end_ + overlapEps)) = s.end_ := by
      ring
    rw [this]
  have hov : overlapFlag s w dx (some Side.start) = true := by
    unfold overlapFlag
    rw [hcr]
  have hacc : acceptBool s w dx (some Side.start) = true := by
    unfold acceptBool
    rw [hov]
    rfl
  have hst := onUpdate_state_accept s w dx (some Side.start) hacc
  refine ⟨?_, ?_, ?_, ?_, ?_⟩
  · rw [hst.1]
    unfold clampedStart
    rw [hcr]
  · rw [hst.2]
    unfold clampedEnd
    rw [hcr]
  · rw [onUpdate_overlap_eq, hov]
  · rw [onUpdate_emitted, hacc]
  · rw [onUpdate_timer, hov]
    rfl

theorem prevEntry_regionB :
    prevEntry regionB = some { start := 0, end_ := 20 } := by decide

theorem tentStart_regionB :
    tentStart regionB 100 (-4) (some Side.start) < 20 := by
  show regionB.start + deltaSeconds regionB 100 (-4) < 20
  rw [regionB_start]
  unfold deltaSeconds
  rw [regionB_totalDuration]
  norm_num

/-- C1 counterexample: the constructor does not order the edges. With
`params = { start: 10, end: 5 }` on a 100-second timeline the committed state
has `start = 10 > 5 = end`, violating `start ≤ end`. -/
theorem c1_counterexample :
    ¬((mkRegion { start := 10, end_ := some 5 } 100 0).start ≤
      (mkRegion { start := 10, end_ := some 5 } 100 0).end_) := by
  decide

/-- C1 (amended): given a nonnegative total duration, the constructor and
`setOptions` clamp each edge individually into `[0, totalDuration]`
(`setOptions` preserving the per-edge bounds of the incoming state), and any
`_onUpdate` sample committed without an overlap event satisfies the full
invariant `0 ≤ start ≤ end ≤ totalDuration`; `start ≤ end` is not established
by the constructor or `setOptions` when the parameters give `end < start`. -/
theorem c1_amended :
    (∀ p td nch, 0 ≤ td → edgeBounds (mkRegion p td nch)) ∧
    (∀ s o, 0 ≤ s.totalDuration → edgeBounds s → edgeBounds (setOptions s o)) ∧
    (∀ s w dx side, overlapFlag s w dx side = false →
      (onUpdate s w dx side).emitted = true →
      fullInvariant (onUpdate s w dx side).state) := by
  refine ⟨?_, ?_, ?_⟩
  · intro p td nch htd
    obtain ⟨ha1, ha2⟩ := clampPosition_bounds td p.start htd
    obtain ⟨hb1, hb2⟩ := clampPosition_bounds td (p.end_.getD p.start) htd
    exact ⟨ha1, ha2, hb1, hb2⟩
  · intro s o htd hb
    obtain ⟨h1, h2, h3, h4⟩ := hb
    unfold setOptions edgeBounds
    repeat' split
    all_goals
      simp_all [clampPosition_bounds s.totalDuration _ htd]
  · intro s w dx side hov hem
    rw [onUpdate_emitted] at hem
    have hc := hem
    unfold acceptBool at hc
    rw [hov] at hc
    simp only [Bool.false_or, Bool.and_eq_true, decide_eq_true_eq] at hc
    obtain ⟨⟨⟨⟨ha, hb2⟩, hc2⟩, -⟩, -⟩ := hc
    obtain ⟨hs, he⟩ := onUpdate_state_accept s w dx side hem
    unfold fullInvariant
    rw [hs, he, onUpdate_totalDuration]
    exact ⟨ha, hc2, hb2⟩

/-- C2: a drag sample is committed exactly when an overlap event occurred or
the possibly clamped edges and the pre-clamp length pass
`newStart ≥ 0`, `newEnd ≤ totalDuration`, `newStart ≤ newEnd`,
`minLength ≤ length ≤ maxLength`; a rejected sample leaves `start`, `end` and
both percent positions unchanged and emits no `update` notification. -/
theorem c2_acceptance (s : RegionState) (w dx : ℚ) (side : Option Side) :
    ((onUpdate s w dx side).emitted = true ↔ commitCondition s w dx side) ∧
    ((onUpdate s w dx side).emitted = false →
      (onUpdate s w dx side).state.start = s.start ∧
      (onUpdate s w dx side).state.end_ = s.end_ ∧
      (onUpdate s w dx side).state.startPercentPosition = s.startPercentPosition ∧
      (onUpdate s w dx side).state.endPercentPosition = s.endPercentPosition) := by
  constructor
  · rw [onUpdate_emitted]
    exact acceptBool_iff s w dx side
  · intro h
    rw [onUpdate_emitted] at h
    exact onUpdate_state_reject s w dx side h

/-- C3 counterexample: `_onUpdate(0, Move)` on the plain region `[5, 10]`
(empty neighbor list, 500-pixel container) passes the acceptance test and
therefore emits an `update` notification, contradicting "never emits". -/
theorem c3_counterexample :
    (onUpdate sampleRegion 500 0 none).emitted = true := by
  rw [onUpdate_emitted]
  unfold acceptBool
  rw [overlapFlag_nil sampleRegion 500 0 none rfl,
    clampedStart_nil sampleRegion 500 0 none rfl,
    clampedEnd_nil sampleRegion 500 0 none rfl,
    tentStart_zero, tentEnd_zero]
  unfold tentLength
  rw [tentStart_zero, tentEnd_zero, sampleRegion_start, sampleRegion_end,
    sampleRegion_totalDuration, sampleRegion_minLength, sampleRegion_maxLength]
  norm_num [lengthLeMax]

/-- C3 (amended): on a region whose `regionsList` is empty (every region the
repository constructs), `_onUpdate(0, side)` never changes `start` or `end`,
but it emits an `update` notification exactly when the current state already
passes the bounds-and-length acceptance test. -/
theorem c3_amended (s : RegionState) (w : ℚ) (side : Option Side)
    (h : s.regionsList = []) :
    (onUpdate s w 0 side).state.start = s.start ∧
    (onUpdate s w 0 side).state.end_ = s.end_ ∧
    ((onUpdate s w 0 side).emitted = true ↔
      (0 ≤ s.start ∧ s.end_ ≤ s.totalDuration ∧ s.start ≤ s.end_ ∧
        s.minLength ≤ s.end_ - s.start ∧
        lengthLeMax s.maxLength (s.end_ - s.start) = true)) := by
  have hcs : clampedStart s w 0 side = s.start := by
    rw [clampedStart_nil s w 0 side h, tentStart_zero]
  have hce : clampedEnd s w 0 side = s.end_ := by
    rw [clampedEnd_nil s w 0 side h, tentEnd_zero]
  have hlen : tentLength s w 0 side = s.end_ - s.start := by
    unfold tentLength
    rw [tentStart_zero, tentEnd_zero]
  have hov := overlapFlag_nil s w 0 side h
  have hiff : (onUpdate s w 0 side).emitted = true ↔
      (0 ≤ s.start ∧ s.end_ ≤ s.totalDuration ∧ s.start ≤ s.end_ ∧
        s.minLength ≤ s.end_ - s.start ∧
        lengthLeMax s.maxLength (s.end_ - s.start) = true) := by
    rw [onUpdate_emitted]
    unfold acceptBool
    rw [hov, hcs, hce, hlen]
    simp [Bool.and_eq_true, decide_eq_true_eq, and_assoc]
  refine ⟨?_, ?_, hiff⟩ <;>
    by_cases hacc : acceptBool s w 0 side = true
  · rw [(onUpdate_state_accept s w 0 side hacc).1, hcs]
  · rw [(onUpdate_state_reject s w 0 side (by simp_all)).1]
  · rw [(onUpdate_state_accept s w 0 side hacc).2, hce]
  · rw [(onUpdate_state_reject s w 0 side (by simp_all)).2.1]

/-- C3 amended witness at the plain region `[5, 10]`: start and end are
unchanged, and the emission test instantiates concretely. -/
theorem c3_amended_witness :
    (onUpdate sampleRegion 500 0 none).state.start = sampleRegion.start ∧
    (onUpdate sampleRegion 500 0 none).state.end_ = sampleRegion.end_ ∧
    ((onUpdate sampleRegion 500 0 none).emitted = true ↔
      (0 ≤ sampleRegion.start ∧ sampleRegion.end_ ≤ sampleRegion.totalDuration ∧
        sampleRegion.start ≤ sampleRegion.end_ ∧
        sampleRegion.minLength ≤ sampleRegion.end_ - sampleRegion.start ∧
        lengthLeMax sampleRegion.maxLength
          (sampleRegion.end_ - sampleRegion.start) = true)) :=
  c3_amended sampleRegion 500 none rfl

/-- C4 counterexample: resizing B = [18, 30] (previous neighbor ending at 20)
leftward past 20 with a -4px delta in a 100px container clamps `start` to
`20 + 1e-9` but leaves `end` at 30 — the committed length is about 10, not
the original 12, so the update does not recompute `end` to preserve B's
length. -/
theorem c4_counterexample :
    (onUpdate regionB 100 (-4) (some Side.start)).state.start =
      20 + overlapEps ∧
    (onUpdate regionB 100 (-4) (some Side.start)).state.end_ = 30 ∧
    ¬((onUpdate regionB 100 (-4) (some Side.start)).state.end_ -
        (onUpdate regionB 100 (-4) (some Side.start)).state.start = 12) := by
  have h := prevClampResizeStart regionB 100 (-4) { start := 0, end_ := 20 }
    prevEntry_regionB tentStart_regionB
  refine ⟨h.1, h.2.1.trans regionB_end, ?_⟩
  rw [h.2.1.trans regionB_end, h.1]
  unfold overlapEps
  norm_num

/-- C4 (amended): when a start-resize would retreat past the previous
neighbor's `end`, the update clamps `start` to `end + 1e-9`, marks an overlap
event and stops any active autoscroll, but leaves the region's `end` at its
tentative value (unchanged by a start-resize): the original length is not
preserved — length preservation applies only to whole-region moves. -/
theorem c4_amended (s : RegionState) (w dx : ℚ) (p : RLEntry)
    (hp : prevEntry s = some p)
    (hlt : tentStart s w dx (some Side.start) < p.end_) :
    (onUpdate s w dx (some Side.start)).state.start = p.end_ + overlapEps ∧
    (onUpdate s w dx (some Side.start)).state.end_ = s.end_ ∧
    (onUpdate s w dx (some Side.start)).overlap = true ∧
    (onUpdate s w dx (some Side.start)).emitted = true ∧
    (onUpdate s w dx (some Side.start)).state.scrollTimerActive = false :=
  prevClampResizeStart s w dx p hp hlt

/-- C4 amended witness at scenario B: B = [18, 30] with previous neighbor
ending at 20, a -4px start-resize in a 100px container. -/
theorem c4_amended_witness :
    (onUpdate regionB 100 (-4) (some Side.start)).state.start =
      20 + overlapEps ∧
    (onUpdate regionB 100 (-4) (some Side.start)).state.end_ = 30 ∧
    (onUpdate regionB 100 (-4) (some Side.start)).overlap = true ∧
    (onUpdate regionB 100 (-4) (some Side.start)).emitted = true ∧
    (onUpdate regionB 100 (-4) (some Side.start)).state.scrollTimerActive =
      false := by
  have h := c4_amended regionB 100 (-4) { start := 0, end_ := 20 }
    prevEntry_regionB tentStart_regionB
  exact ⟨h.1, h.2.1.trans regionB_end, h.2.2⟩

/-- C5: whenever an `_onUpdate` call marks an overlap event, the region's
autoscroll timer is cancelled before the call returns (the resulting state
holds no running timer), regardless of pointer state and of whether the
sample was committed. -/
theorem c5_overlap_stops_autoscroll (s : RegionState) (w dx : ℚ)
    (side : Option Side)
    (h : (onUpdate s w dx side).overlap = true) :
    (onUpdate s w dx side).state.scrollTimerActive = false := by
  rw [onUpdate_overlap_eq] at h
  rw [onUpdate_timer, h]
  rfl

/-- C5 witness: the scenario B overlap clamp (with an active autoscroll
timer) leaves the timer cancelled. -/
theorem c5_overlap_stops_autoscroll_witness :
    (onUpdate regionB 100 (-4) (some Side.start)).state.scrollTimerActive =
      false := by
  refine c5_overlap_stops_autoscroll regionB 100 (-4) (some Side.start) ?_
  exact (prevClampResizeStart regionB 100 (-4) { start := 0, end_ := 20 }
    prevEntry_regionB tentStart_regionB).2.2.1

/-- C6: for a region with no neighbors, an accepted Move sample shifts both
edges by `deltaSeconds = deltaPixels / containerWidthPixels * totalDuration`
and emits the (single) `update` notification of that call. -/
theorem c6_move_conversion (s : RegionState) (w dx : ℚ)
    (hnil : s.regionsList = [])
    (h0 : 0 ≤ s.start + deltaSeconds s w dx)
    (h1 : s.end_ + deltaSeconds s w dx ≤ s.totalDuration)
    (h2 : s.start ≤ s.end_)
    (h3 : s.minLength ≤ s.end_ - s.start)
    (h4 : lengthLeMax s.maxLength (s.end_ - s.start) = true) :
    (onUpdate s w dx none).emitted = true ∧
    (onUpdate s w dx none).state.start = s.start + dx / w * s.totalDuration ∧
    (onUpdate s w dx none).state.end_ = s.end_ + dx / w * s.totalDuration := by
  have hts : tentStart s w dx none = s.start + deltaSeconds s w dx := rfl
  have hte : tentEnd s w dx none = s.end_ + deltaSeconds s w dx := rfl
  have hlen : tentLength s w dx none = s.end_ - s.start := by
    unfold tentLength
    rw [hts, hte]
    ring
  have hacc : acceptBool s w dx none = true := by
    unfold acceptBool
    rw [overlapFlag_nil s w dx none hnil, clampedStart_nil s w dx none hnil,
      clampedEnd_nil s w dx none hnil, hts, hte, hlen]
    simp only [Bool.false_or, Bool.and_eq_true, decide_eq_true_eq]
    exact ⟨⟨⟨⟨h0, h1⟩, add_le_add_right h2 _⟩, h3⟩, h4⟩
  have hst := onUpdate_state_accept s w dx none hacc
  refine ⟨by rw [onUpdate_emitted, hacc], ?_, ?_⟩
  · rw [hst.1, clampedStart_nil s w dx none hnil, hts]
    rfl
  · rw [hst.2, clampedEnd_nil s w dx none hnil, hte]
    rfl

/-- C6 witness, the spec's scenario A: region [5, 10] on a 100-second
timeline in a 500-pixel container; a +50px move delta converts to 10 seconds
and commits [15, 20] with the update notification emitted. -/
theorem c6_move_conversion_witness :
    (onUpdate sampleRegion 500 50 none).emitted = true ∧
    (onUpdate sampleRegion 500 50 none).state.start = 15 ∧
    (onUpdate sampleRegion 500 50 none).state.end_ = 20 := by
  have hd : deltaSeconds sampleRegion 500 50 = 10 := by
    unfold deltaSeconds
    rw [sampleRegion_totalDuration]
    norm_num
  have h := c6_move_conversion sampleRegion 500 50 rfl
    (by rw [sampleRegion_start, hd]; norm_num)
    (by rw [sampleRegion_end, hd, sampleRegion_totalDuration]; norm_num)
    (by rw [sampleRegion_start, sampleRegion_end]; norm_num)
    (by rw [sampleRegion_start, sampleRegion_end, sampleRegion_minLength]; norm_num)
    (by rw [sampleRegion_maxLength]; rfl)
  refine ⟨h.1, ?_, ?_⟩
  · rw [h.2.1, sampleRegion_start, sampleRegion_totalDuration]
    norm_num
  · rw [h.2.2, sampleRegion_end, sampleRegion_totalDuration]
    norm_num

/-- C7: after activation, with a directional lock configured (`side` is
`'start'` or `'end'`), a move sample whose pointer has crossed to the
opposite side of the element's boundary in the direction of travel
(`dx > 0` with the pointer left of the element, or `dx < 0` with the pointer
right of it) suppresses the `onDrag` callback, yet the anchor still advances
to the sample's position. -/
theorem c7_directional_lock (cfg : DragConfig) (rect : Rect) (st : DragSession)
    (x y now : ℚ) (sd : Side)
    (hside : cfg.side = some sd)
    (hdrag : st.isDragging = true)
    (htouch : cfg.isTouchDevice = false)
    (hcross : (x - st.startX > 0 ∧ x < rect.left) ∨
      (x - st.startX < 0 ∧ x > rect.right)) :
    (onPointerMove cfg rect st x y now).dragFired = false ∧
    (onPointerMove cfg rect st x y now).session.startX = x ∧
    (onPointerMove cfg rect st x y now).session.startY = y := by
  unfold onPointerMove
  rw [htouch, hdrag, hside]
  have hleave :
      (decide (x - st.startX > 0 ∧ x < rect.left) ||
        decide (x - st.startX < 0 ∧ x > rect.right)) = true := by
    rcases hcross with ⟨h1, h2⟩ | ⟨h1, h2⟩ <;> simp [h1, h2]
  cases sd <;>
    simp only [Bool.false_and, Bool.false_eq_true, if_false, Bool.true_or,
      if_true, hleave] <;>
    exact ⟨trivial, trivial, trivial⟩

/-- C7 witness: an activated end-handle session anchored at x = 10 receives a
sample at x = 15 (rightward travel) with the pointer left of the element's
left edge 20: `onDrag` is suppressed and the anchor advances to (15, 7). -/
theorem c7_directional_lock_witness :
    (onPointerMove { side := some Side.end_ } { left := 20, top := 0, right := 40 }
      { startX := 10, startY := 0, isDragging := true, touchStartTime := 0,
        startXFromRectLeft := 0 } 15 7 1000).dragFired = false ∧
    (onPointerMove { side := some Side.end_ } { left := 20, top := 0, right := 40 }
      { startX := 10, startY := 0, isDragging := true, touchStartTime := 0,
        startXFromRectLeft := 0 } 15 7 1000).session.startX = 15 ∧
    (onPointerMove { side := some Side.end_ } { left := 20, top := 0, right := 40 }
      { startX := 10, startY := 0, isDragging := true, touchStartTime := 0,
        startXFromRectLeft := 0 } 15 7 1000).session.startY = 7 := by
  refine c7_directional_lock _ _ _ 15 7 1000 Side.end_ rfl rfl rfl
    (Or.inl ⟨?_, ?_⟩)
  · show (15 : ℚ) - 10 > 0
    norm_num
  · show (15 : ℚ) < 20
    norm_num

/-- C8 counterexample: `enableDragSelection` invoked before the host player
is ready (no wavesurfer, hence no wrapper) does not throw — it silently
returns the no-op disposer. -/
theorem c8_counterexample :
    enableDragSelection none = Except.ok DragSelSetup.noop := rfl

/-- C8 (amended): `addRegion` before the host player is ready throws
`'WaveSurfer is not initialized'` immediately, and with the player ready but
the duration still unknown it defers the region (built with duration 0) and
completes it — adopting the delivered duration — once `ready` fires;
`enableDragSelection` before the player is ready does not throw but silently
returns a no-op disposer. -/
theorem c8_amended :
    (∀ p, addRegion none p = Except.error "WaveSurfer is not initialized") ∧
    (∀ ws p, ws.duration = 0 →
      addRegion (some ws) p =
        Except.ok (AddOutcome.deferred (mkRegion p 0 ws.numberOfChannels))) ∧
    (∀ ws p, ws.duration ≠ 0 →
      addRegion (some ws) p =
        Except.ok (AddOutcome.saved (mkRegion p ws.duration ws.numberOfChannels))) ∧
    (∀ r d, (completeDeferred r d).totalDuration = d) ∧
    enableDragSelection none = Except.ok DragSelSetup.noop := by
  refine ⟨fun p => rfl, ?_, ?_, fun r d => rfl, rfl⟩
  · intro ws p h
    simp [addRegion, h]
  · intro ws p h
    simp [addRegion, h]

/-- C9: every region the repository itself constructs and evolves (through
the constructor, `_onUpdate`, `setOptions` and `_setTotalDuration`) keeps
`regionsList` empty, so the neighbor-overlap branch of `_onUpdate` is
unreachable — the overlap flag is always `false` and every commit is decided
solely by the bounds-and-length acceptance test on the tentative values. -/
theorem c9_regions_list_empty (s : RegionState) (h : Reachable s) :
    s.regionsList = [] ∧
    ∀ w dx side,
      overlapFlag s w dx side = false ∧
      ((onUpdate s w dx side).emitted = true ↔
        (0 ≤ tentStart s w dx side ∧
          tentEnd s w dx side ≤ s.totalDuration ∧
          tentStart s w dx side ≤ tentEnd s w dx side ∧
          s.minLength ≤ tentLength s w dx side ∧
          lengthLeMax s.maxLength (tentLength s w dx side) = true)) := by
  have hnil : s.regionsList = [] := by
    induction h with
    | init p td nch => rfl
    | update s w dx side hr ih => rw [onUpdate_regionsList]; exact ih
    | opts s o hr ih => rw [setOptions_regionsList]; exact ih
    | duration s d hr ih => rw [setTotalDuration_regionsList]; exact ih
  refine ⟨hnil, fun w dx side => ⟨overlapFlag_nil s w dx side hnil, ?_⟩⟩
  rw [onUpdate_emitted]
  unfold acceptBool
  rw [overlapFlag_nil s w dx side hnil, clampedStart_nil s w dx side hnil,
    clampedEnd_nil s w dx side hnil]
  simp [Bool.and_eq_true, decide_eq_true_eq, and_assoc]

/-- C9 witness at the constructor state for region [5, 10] on a 100-second
timeline. -/
theorem c9_regions_list_empty_witness :
    sampleRegion.regionsList = [] ∧
    ∀ w dx side,
      overlapFlag sampleRegion w dx side = false ∧
      ((onUpdate sampleRegion w dx side).emitted = true ↔
        (0 ≤ tentStart sampleRegion w dx side ∧
          tentEnd sampleRegion w dx side ≤ sampleRegion.totalDuration ∧
          tentStart sampleRegion w dx side ≤ tentEnd sampleRegion w dx side ∧
          sampleRegion.minLength ≤ tentLength sampleRegion w dx side ∧
          lengthLeMax sampleRegion.maxLength
            (tentLength sampleRegion w dx side) = true)) :=
  c9_regions_list_empty sampleRegion
    (Reachable.init { start := 5, end_ := some 10 } 100 0)

/-- C10: `region-in` and `region-out` are emitted only from a `timeupdate`
delivered while the player reports `isPlaying()`; a paused `timeupdate`
emits nothing and leaves the tracked in-region unchanged, wherever the
current time lies. -/
theorem c10_paused_no_events (regions : List RegionState)
    (regionIn : Option String) (t : ℚ) :
    timeupdateHandler regions regionIn t false = (regionIn, []) := rfl
